import Mathlib

set_option maxRecDepth 16000

/-!
Shallow embedding of the core of the NBN testbed repository:
the experiment orchestrator of perfmon/simultaneous_capture_trafgen.py,
the sample-series builder of log_processor.py, and the windowed peak
detector of peak_speed_detect.py.  Counter values and float arithmetic
are modelled over the rationals; fallible code returns Except.
-/

deriving instance DecidableEq for Except

namespace NBN

/-! ## Sample-series builder: log_processor.py -/

/-- One parsed line of a collector log (after the skipped header line),
with the column names that process_log_to_df assigns to the eleven
space-separated fields. -/
structure RawSample where
  time : ℚ
  rx_packets : ℚ
  rx_bytes : ℚ
  tx_packets : ℚ
  tx_bytes : ℚ
  qdisc : String
  bytes : ℚ
  packets : ℚ
  drops : ℚ
  overlimits : ℚ
  BACKLOG : ℚ
  deriving DecidableEq

/-- The processed DataFrame built by process_log_to_df: the columns kept
from the raw log restricted to the retained rows, plus the two derived
buffer-metric columns. -/
structure ProcessedDf where
  time : List ℚ
  relative_time : List ℚ
  rx_packets : List ℚ
  rx_bytes : List ℚ
  tx_packets : List ℚ
  tx_bytes : List ℚ
  bytes : List ℚ
  packets : List ℚ
  drops : List ℚ
  overlimits : List ℚ
  BACKLOG : List ℚ
  queue_size : List (Option ℚ)
  queue_exists : List Nat
  deriving DecidableEq

/-- pandas Series.diff: the first entry is the NaN sentinel (`none`),
entry i (for i over 1) is value i minus value i-1. -/
def pandasDiff (xs : List ℚ) : List (Option ℚ) :=
  match xs with
  | [] => []
  | x :: rest => none :: List.zipWith (fun a b => some (a - b)) rest (x :: rest)

/-- The comparison `queue_size gt threshold` as pandas evaluates it on a
diff column: comparing the NaN sentinel with any number is false. -/
def optGtQ : Option ℚ → ℚ → Bool
  | none, _ => false
  | some x, t => decide (t < x)

/-- process_log_to_df of log_processor.py.  The input list is the log
after the skipped header line.  A log with no sample row makes
pd.read_csv raise EmptyDataError; a log with one sample row makes the
scalar access `iloc` at position 1 raise IndexError.  Otherwise the rows
from position 1 on are retained when their relative time (to the row at
position 1) is at most time_threshold, and the two buffer metrics are
derived on the retained rows: queue_size is the pandas diff of BACKLOG
and queue_exists compares it against the hard-coded literal 10. -/
def process_log_to_df (samples : List RawSample) (time_threshold : ℚ) :
    Except String ProcessedDf :=
  match samples with
  | [] => Except.error "EmptyDataError: No columns to parse from file"
  | [_] => Except.error "IndexError: single positional indexer is out-of-bounds"
  | _ :: s1 :: rest =>
    let t1 := s1.time
    let kept := (s1 :: rest).filter (fun s => decide (s.time - t1 ≤ time_threshold))
    let qs := pandasDiff (kept.map (fun s => s.BACKLOG))
    Except.ok {
      time := kept.map (fun s => s.time)
      relative_time := kept.map (fun s => s.time - t1)
      rx_packets := kept.map (fun s => s.rx_packets)
      rx_bytes := kept.map (fun s => s.rx_bytes)
      tx_packets := kept.map (fun s => s.tx_packets)
      tx_bytes := kept.map (fun s => s.tx_bytes)
      bytes := kept.map (fun s => s.bytes)
      packets := kept.map (fun s => s.packets)
      drops := kept.map (fun s => s.drops)
      overlimits := kept.map (fun s => s.overlimits)
      BACKLOG := kept.map (fun s => s.BACKLOG)
      queue_size := qs
      queue_exists := qs.map (fun q => if optGtQ q 10 then 1 else 0)
    }

/-- One processing step of process_all_logs of log_processor.py: it
accepts a queue_threshold argument but calls process_log_to_df with the
time threshold only, so queue_threshold is never forwarded and the
comparison inside process_log_to_df stays at the literal 10. -/
def process_all_logs_entry (_queue_threshold time_threshold : ℚ)
    (log : List RawSample) : Except String ProcessedDf :=
  process_log_to_df log time_threshold

/-! ## Experiment orchestrator: perfmon/simultaneous_capture_trafgen.py -/

/-- A host entry of the capture config: hostname and its monitored
interface names. -/
structure HostSpec where
  hostname : String
  ifaces : List String
  deriving DecidableEq

/-- One test endpoint object of the trafgen config. -/
structure Endpoint where
  name : String
  cmd : String
  start_time : Int
  deriving DecidableEq

/-- One test entry of the trafgen config, with its optional host1 and
host2 endpoints. -/
structure TestDesc where
  testname : String
  host1 : Option Endpoint
  host2 : Option Endpoint
  deriving DecidableEq

/-- The role tag a spawned child is tracked with (the `name` field of the
dict appended to `pids` in the source, together with its identity). -/
inductive SpawnRole
  | collector (hostname iface : String)
  | host1Gen (testname host : String)
  | host2Gen (testname host : String)
  deriving DecidableEq

/-- The orchestrator spawn-time state: the next pid the OS will hand out
and the append-only `pids` registry. -/
structure SpawnState where
  nextPid : Nat
  pids : List (Nat × SpawnRole)
  deriving DecidableEq

/-- os.fork followed by `pids.append`: the child gets the next pid and a
record is appended to the registry. -/
def forkTrack (st : SpawnState) (r : SpawnRole) : SpawnState :=
  { nextPid := st.nextPid + 1, pids := st.pids ++ [(st.nextPid, r)] }

/-- The inner collector loop: one fork per interface of one host. -/
def spawnCollectorsHost (h : HostSpec) (st : SpawnState) : SpawnState :=
  h.ifaces.foldl (fun st i => forkTrack st (SpawnRole.collector h.hostname i)) st

/-- The outer collector loop over the host list. -/
def spawnCollectors (hosts : List HostSpec) (st : SpawnState) : SpawnState :=
  hosts.foldl (fun st h => spawnCollectorsHost h st) st

/-- The body of the test loop: fork the host1 endpoint if present, then
the host2 endpoint if present. -/
def spawnTest (t : TestDesc) (st : SpawnState) : SpawnState :=
  let st1 := match t.host1 with
    | some e => forkTrack st (SpawnRole.host1Gen t.testname e.name)
    | none => st
  match t.host2 with
  | some e => forkTrack st1 (SpawnRole.host2Gen t.testname e.name)
  | none => st1

/-- The whole spawn phase of the script: the collector loops over the
capture config, then the test loop over the trafgen config, threading
the registry state. -/
def spawnAll (hosts : List HostSpec) (tests : List TestDesc) : SpawnState :=
  tests.foldl (fun st t => spawnTest t st) (spawnCollectors hosts { nextPid := 1, pids := [] })

/-- The generator roles the source registers for one test entry: host1
first if present, then host2 if present. -/
def perTestRoles (t : TestDesc) : List SpawnRole :=
  (t.host1.map fun e => SpawnRole.host1Gen t.testname e.name).toList
    ++ (t.host2.map fun e => SpawnRole.host2Gen t.testname e.name).toList

/-- The collector roles the source registers, host-list order, interface
order within a host. -/
def collectorRoles (hosts : List HostSpec) : List SpawnRole :=
  hosts.flatMap fun h => h.ifaces.map fun i => SpawnRole.collector h.hostname i

/-- Modelled from the spec: spawn order is all collectors (one per host
and interface, host-list order), then all host1 endpoints in descriptor
order, then all host2 endpoints in descriptor order. -/
def specSpawnOrder (hosts : List HostSpec) (tests : List TestDesc) : List SpawnRole :=
  collectorRoles hosts
    ++ (tests.filterMap fun t => t.host1.map fun e => SpawnRole.host1Gen t.testname e.name)
    ++ (tests.filterMap fun t => t.host2.map fun e => SpawnRole.host2Gen t.testname e.name)

/-- The run-time state the interrupt handler sees: the append-only pids
registry and the set of children the OS still knows (not yet reaped). -/
structure OrchState where
  pids : List Nat
  alive : List Nat
  deriving DecidableEq

/-- One turn of the wait loop: os.wait reaps a child, the registry is
only printed, never pruned. -/
def reapOne (st : OrchState) (p : Nat) : OrchState :=
  { st with alive := st.alive.erase p }

/-- The body of signal_handler: iterate the full pids registry in order
and os.kill each entry with SIGKILL.  os.kill on a pid that is no longer
a live process raises ProcessLookupError, which the handler does not
catch, so the sweep stops at the first such pid.  On success it returns
the pids it signalled, in order. -/
def killSweep (alive : List Nat) : List Nat → Except Nat (List Nat)
  | [] => Except.ok []
  | p :: ps =>
    if p ∈ alive then Except.map (fun ks => p :: ks) (killSweep alive ps)
    else Except.error p

/-- signal_handler of simultaneous_capture_trafgen.py applied to the
current orchestrator state. -/
def signal_handler (st : OrchState) : Except Nat (List Nat) :=
  killSweep st.alive st.pids

/-! ## Windowed peak detector: peak_speed_detect.py -/

/-- Boolean success test on an Except value. -/
def isOkE {ε α : Type} : Except ε α → Bool
  | Except.ok _ => true
  | Except.error _ => false

/-- np.diff: consecutive differences, one shorter than the input. -/
def npDiff (xs : List ℚ) : List ℚ :=
  List.zipWith (fun a b => a - b) (xs.drop 1) xs

/-- The mean sample interval in milliseconds computed at the top of
peak_speed_detect: np.mean of np.diff of the time axis, times 1000. -/
def meanDtMs (time : List ℚ) : ℚ :=
  (npDiff time).sum / ((time.length : ℚ) - 1) * 1000

/-- Python round: round half to even, as the source applies to the
window-width over mean-interval ratios. -/
def roundHalfEven (q : ℚ) : Int :=
  let f : Int := ⌊q⌋
  let r : ℚ := q - (f : ℚ)
  if r < 1/2 then f
  else if 1/2 < r then f + 1
  else if f % 2 = 0 then f else f + 1

/-- The conversion of a bin width in milliseconds into a step count:
round of width over mean sample interval. -/
def stepOf (time : List ℚ) (bw : ℚ) : Int :=
  roundHalfEven (bw / meanDtMs time)

/-- Python list slice from a to b (only used with a at most b, both
nonnegative and clipped at the length, as in the source loops). -/
def sliceN (xs : List ℚ) (a b : Nat) : List ℚ :=
  (xs.take b).drop a

/-- np.max: the maximum of a window; raises on an empty window. -/
def npMax : List ℚ → Except String ℚ
  | [] => Except.error "ValueError: zero-size array reduction has no identity"
  | x :: rest => Except.ok (rest.foldl max x)

/-- Evaluate an index-wise computation over a list of indexes, stopping
at the first raised error, as a Python loop does. -/
def mapME {α : Type} (f : Nat → Except String α) : List Nat → Except String (List α)
  | [] => Except.ok []
  | i :: is =>
    match f i, mapME f is with
    | Except.ok y, Except.ok ys => Except.ok (y :: ys)
    | Except.error e, _ => Except.error e
    | Except.ok _, Except.error e => Except.error e

/-- The short-term peak array.  The source loop walks block starts
idx in range 0, len - s, s and broadcasts np.max of the raw window
throughput idx to idx + s over that block; a position j therefore holds
that block max when its block start (j div s times s) lies below
len - s, and keeps its initial zero otherwise. -/
def binnedPeaksST (tp : List ℚ) (s : Nat) : Except String (List ℚ) :=
  mapME (fun j =>
      if ((j / s * s : Nat) : Int) < (tp.length : Int) - (s : Int) then
        npMax (sliceN tp (j / s * s) (j / s * s + s))
      else Except.ok 0)
    (List.range tp.length)

/-- The long-term peak array.  The source loop sets, for every idx in
range L, len - L, the entry idx to np.max of the filtered window from
idx - L to idx + L; every other entry keeps its initial zero. -/
def binnedPeaksLT (xs : List ℚ) (L : Nat) : Except String (List ℚ) :=
  mapME (fun idx =>
      if L ≤ idx ∧ (idx : Int) < (xs.length : Int) - (L : Int) then
        npMax (sliceN xs (idx - L) (idx + L))
      else Except.ok 0)
    (List.range xs.length)

/-- Indexing used by the zero-padded median filter: out-of-range reads
are zero. -/
def getZero (xs : List ℚ) (i : Int) : ℚ :=
  if 0 ≤ i then xs.getD i.toNat 0 else 0

/-- Insertion into a sorted list, for the median computation. -/
def insertSorted (x : ℚ) : List ℚ → List ℚ
  | [] => [x]
  | y :: ys => if x ≤ y then x :: y :: ys else y :: insertSorted x ys

/-- Insertion sort of a rational list. -/
def sortQ (xs : List ℚ) : List ℚ :=
  xs.foldr insertSorted []

/-- The median of the 15-wide zero-padded window centred at i: the
middle element (position 7) of the sorted window. -/
def median15 (xs : List ℚ) (i : Nat) : ℚ :=
  (sortQ ((List.range 15).map (fun k : Nat => getZero xs ((i : Int) + (k : Int) - 7)))).getD 7 0

/-- scipy.signal.medfilt with kernel size 15: a zero-padded sliding
median, length preserving. -/
def medfilt15 (xs : List ℚ) : List ℚ :=
  (List.range xs.length).map (median15 xs)

/-- The exponential moving average the source computes (memory factor
0.95); it is assigned but never used in the returned values. -/
def movingAvgAux (prev : ℚ) : List ℚ → List ℚ
  | [] => []
  | x :: rest =>
    (95/100 * prev + 5/100 * x) :: movingAvgAux (95/100 * prev + 5/100 * x) rest

/-- The moving_avg array of the source (entry 0 stays zero). -/
def movingAvg (tp : List ℚ) : List ℚ :=
  match tp with
  | [] => []
  | _ :: rest => 0 :: movingAvgAux 0 rest

/-- peak_speed_detect of peak_speed_detect.py.  The mean time delta is
converted to milliseconds and both bin widths into rounded step counts;
a long_term_step worth of zero padding is prepended to the throughput;
the short-term block maxima are taken on the raw padded series and the
long-term windowed maxima on its 15-wide median filtering; the score is
the elementwise comparison short-term peak gt 0.7 times long-term peak;
finally the padding is stripped from all three outputs.  The error
branches are where the Python raises: round on the NaN mean of an empty
diff (fewer than two time points), round on the infinity from a zero
mean interval, np.zeros of a negative padding length, a zero step handed
to range, and np.max of an empty window. -/
def peak_speed_detect (throughput time : List ℚ) (bwShort bwLong : ℚ) :
    Except String (List Bool × List ℚ × List ℚ) :=
  if time.length < 2 then
    Except.error "ValueError: cannot convert float NaN to integer"
  else if meanDtMs time = 0 then
    Except.error "OverflowError: cannot convert float infinity to integer"
  else if stepOf time bwLong < 0 then
    Except.error "ValueError: negative dimensions are not allowed"
  else if stepOf time bwShort = 0 then
    Except.error "ValueError: range arg 3 must not be zero"
  else
    let Ln : Nat := (stepOf time bwLong).toNat
    let tp : List ℚ := List.replicate Ln 0 ++ throughput
    let stRes : Except String (List ℚ) :=
      if 0 < stepOf time bwShort then binnedPeaksST tp (stepOf time bwShort).toNat
      else Except.ok (List.replicate tp.length 0)
    match stRes, binnedPeaksLT (medfilt15 tp) Ln with
    | Except.ok st, Except.ok lt =>
      Except.ok
        ((List.zipWith (fun a b => decide (7/10 * b < a)) st lt).drop Ln,
          lt.drop Ln, (medfilt15 tp).drop Ln)
    | Except.error e, _ => Except.error e
    | Except.ok _, Except.error e => Except.error e

/-! ## Concrete example inputs used by witnesses and counterexamples -/

/-- A raw sample with the given timestamp and backlog and zero counters. -/
def mkSample (t b : ℚ) : RawSample :=
  ⟨t, 0, 0, 0, 0, "fq", 0, 0, 0, 0, b⟩

/-- The first sample of the worked example of the spec. -/
def sampleEx0 : RawSample := ⟨0, 0, 0, 0, 0, "fq", 5, 1, 0, 0, 5⟩

/-- The second sample of the worked example of the spec. -/
def sampleEx1 : RawSample := ⟨1, 10, 1000, 10, 1000, "fq", 50, 6, 0, 0, 50⟩

/-- A three-sample log whose last sample falls beyond the 100 s cutoff. -/
def logLate : List RawSample := [mkSample 0 0, mkSample 1 10, mkSample 200 17]

/-- A three-sample log, one second apart, with backlog deltas 10 and 7. -/
def logDeltas : List RawSample := [mkSample 0 0, mkSample 1 10, mkSample 2 17]

/-- A time axis of 3 samples, 0.1 s apart (mean interval 100 ms). -/
def time3 : List ℚ := [0, 1/10, 2/10]

/-- A time axis of 5 samples, 0.1 s apart. -/
def time5 : List ℚ := [0, 1/10, 2/10, 3/10, 4/10]

/-- A time axis of 12 samples, 0.1 s apart. -/
def time12 : List ℚ :=
  [0, 1/10, 2/10, 3/10, 4/10, 5/10, 6/10, 7/10, 8/10, 9/10, 1, 11/10]

/-- A time axis of 25 samples, 0.1 s apart. -/
def time25 : List ℚ :=
  [0, 1/10, 2/10, 3/10, 4/10, 5/10, 6/10, 7/10, 8/10, 9/10, 1, 11/10, 12/10,
    13/10, 14/10, 15/10, 16/10, 17/10, 18/10, 19/10, 2, 21/10, 22/10, 23/10, 24/10]

/-- A throughput series of 25 samples that is zero except for an isolated
spike of 100 at index 12. -/
def spike25 : List ℚ :=
  [0, 0, 0, 0, 0, 0, 0, 0, 0, 0, 0, 0, 100, 0, 0, 0, 0, 0, 0, 0, 0, 0, 0, 0, 0]

/-- One monitored host with one interface. -/
def hostsOne : List HostSpec := [⟨"h0", ["eth0"]⟩]

/-- Two test descriptors, each with both a host1 and a host2 endpoint. -/
def testsTwo : List TestDesc :=
  [⟨"t1", some ⟨"a", "cmd1", 0⟩, some ⟨"b", "cmd2", 0⟩⟩,
    ⟨"t2", some ⟨"c", "cmd3", 0⟩, some ⟨"d", "cmd4", 0⟩⟩]

/-! ## Helper lemmas -/

theorem isOkE_eq_true {ε α : Type} {e : Except ε α} :
    isOkE e = true ↔ ∃ a, e = Except.ok a := by
  cases e <;> simp [isOkE]

theorem mapME_ok_length {α : Type} {f : Nat → Except String α} {is : List Nat}
    {ys : List α} (h : mapME f is = Except.ok ys) : ys.length = is.length := by
  induction is generalizing ys with
  | nil =>
    simp only [mapME, Except.ok.injEq] at h
    simp [← h]
  | cons i is ih =>
    rw [mapME] at h
    split at h
    · rename_i y ys' hy hys
      cases h
      simp [ih hys]
    · cases h
    · cases h

theorem mapME_ok_apply {f : Nat → Except String ℚ} {is : List Nat}
    {ys : List ℚ} (h : mapME f is = Except.ok ys) :
    ∀ k, k < is.length → f (is.getD k 0) = Except.ok (ys.getD k 0) := by
  induction is generalizing ys with
  | nil => intro k hk; simp at hk
  | cons i is ih =>
    rw [mapME] at h
    split at h
    · rename_i y ys' hy hys
      cases h
      intro k hk
      cases k with
      | zero => simpa using hy
      | succ k => exact ih hys k (by simpa using hk)
    · cases h
    · cases h

theorem mapME_const {α : Type} {f : Nat → Except String α} {c : α} {is : List Nat}
    (h : ∀ i ∈ is, f i = Except.ok c) :
    mapME f is = Except.ok (List.replicate is.length c) := by
  induction is with
  | nil => rfl
  | cons i is ih =>
    rw [mapME, h i (List.mem_cons_self i is), ih (fun j hj => h j (List.mem_cons_of_mem i hj))]
    simp [List.replicate_succ]

theorem mapME_isOk {α : Type} {f : Nat → Except String α} {is : List Nat}
    (h : ∀ i ∈ is, isOkE (f i) = true) : isOkE (mapME f is) = true := by
  induction is with
  | nil => rfl
  | cons i is ih =>
    obtain ⟨y, hy⟩ := isOkE_eq_true.mp (h i (List.mem_cons_self i is))
    obtain ⟨ys, hys⟩ :=
      isOkE_eq_true.mp (ih (fun j hj => h j (List.mem_cons_of_mem i hj)))
    rw [mapME, hy, hys]
    rfl

theorem le_foldl_max : ∀ (xs : List ℚ) (a : ℚ), a ≤ xs.foldl max a
  | [], _ => le_refl _
  | y :: ys, a => le_trans (le_max_left a y) (le_foldl_max ys (max a y))

theorem mem_le_foldl_max {x : ℚ} {xs : List ℚ} (hx : x ∈ xs) :
    ∀ a : ℚ, x ≤ xs.foldl max a := by
  induction xs with
  | nil => cases hx
  | cons y ys ih =>
    intro a
    rcases List.mem_cons.mp hx with rfl | hmem
    · exact le_trans (le_max_right a x) (le_foldl_max ys (max a x))
    · exact ih hmem (max a y)

theorem npMax_ge {w : List ℚ} {m : ℚ} (h : npMax w = Except.ok m) {x : ℚ}
    (hx : x ∈ w) : x ≤ m := by
  cases w with
  | nil => cases h
  | cons a rest =>
    simp only [npMax, Except.ok.injEq] at h
    rcases List.mem_cons.mp hx with rfl | hmem
    · rw [← h]; exact le_foldl_max rest x
    · rw [← h]; exact mem_le_foldl_max hmem a

theorem npMax_isOk {w : List ℚ} (h : w ≠ []) : isOkE (npMax w) = true := by
  cases w with
  | nil => cases h rfl
  | cons a rest => rfl

theorem foldl_max_zero_replicate : ∀ k : Nat, (List.replicate k (0:ℚ)).foldl max 0 = 0 := by
  intro k
  induction k with
  | zero => rfl
  | succ k ih => rw [List.replicate_succ, List.foldl_cons, max_self]; exact ih

theorem npMax_replicate_zero {k : Nat} (hk : 1 ≤ k) :
    npMax (List.replicate k (0:ℚ)) = Except.ok 0 := by
  cases k with
  | zero => omega
  | succ k =>
    rw [List.replicate_succ, npMax]
    rw [foldl_max_zero_replicate k]

theorem sliceN_length (xs : List ℚ) (a b : Nat) :
    (sliceN xs a b).length = min b xs.length - a := by
  simp [sliceN]

theorem sliceN_replicate_zero (m a b : Nat) :
    sliceN (List.replicate m (0:ℚ)) a b = List.replicate (min b m - a) 0 := by
  simp [sliceN, List.take_replicate, List.drop_replicate]

theorem sliceN_getElem? (xs : List ℚ) {a b idx : Nat} (ha : a ≤ idx) (hb : idx < b) :
    (sliceN xs a b)[idx - a]? = xs[idx]? := by
  unfold sliceN
  rw [List.getElem?_drop]
  have hid : a + (idx - a) = idx := by omega
  rw [hid, List.getElem?_take_of_lt hb]

theorem getD_mem_sliceN {xs : List ℚ} {a b idx : Nat} (ha : a ≤ idx) (hb : idx < b)
    (hl : idx < xs.length) : xs.getD idx 0 ∈ sliceN xs a b := by
  apply List.getElem?_mem (n := idx - a)
  rw [sliceN_getElem? xs ha hb, List.getElem?_eq_getElem hl,
    List.getD_eq_getElem xs 0 hl]

theorem getD_drop (l : List ℚ) (n i : Nat) :
    (l.drop n).getD i 0 = l.getD (n + i) 0 := by
  simp [List.getD_eq_getElem?_getD, List.getElem?_drop]

theorem getD_replicate_zero (m j : Nat) : (List.replicate m (0:ℚ)).getD j 0 = 0 := by
  simp only [List.getD_eq_getElem?_getD, List.getElem?_replicate]
  split <;> rfl

theorem range_getD {n k : Nat} (h : k < n) : (List.range n).getD k 0 = k := by
  simp [List.getD_eq_getElem?_getD, List.getElem?_range h]

theorem binnedPeaksST_isOk (tp : List ℚ) (s : Nat) (hs : 1 ≤ s) :
    isOkE (binnedPeaksST tp s) = true := by
  apply mapME_isOk
  intro j _
  by_cases hcov : ((j / s * s : Nat) : Int) < (tp.length : Int) - (s : Int)
  · rw [if_pos hcov]
    have hb : j / s * s + s ≤ tp.length := by omega
    have hlen : (sliceN tp (j / s * s) (j / s * s + s)).length = s := by
      rw [sliceN_length]; omega
    apply npMax_isOk
    intro hnil
    rw [hnil] at hlen
    simp at hlen
    omega
  · rw [if_neg hcov]; rfl

theorem binnedPeaksLT_isOk (xs : List ℚ) (L : Nat) (hL : 1 ≤ L) :
    isOkE (binnedPeaksLT xs L) = true := by
  apply mapME_isOk
  intro idx _
  by_cases hcov : L ≤ idx ∧ (idx : Int) < (xs.length : Int) - (L : Int)
  · rw [if_pos hcov]
    obtain ⟨h1, h2⟩ := hcov
    have hb : idx + L ≤ xs.length := by omega
    have hlen : (sliceN xs (idx - L) (idx + L)).length = 2 * L := by
      rw [sliceN_length]; omega
    apply npMax_isOk
    intro hnil
    rw [hnil] at hlen
    simp at hlen
    omega
  · rw [if_neg hcov]; rfl

theorem binnedPeaksST_replicate_zero (m s : Nat) (hs : 1 ≤ s) :
    binnedPeaksST (List.replicate m 0) s = Except.ok (List.replicate m 0) := by
  have hall : ∀ j ∈ List.range m,
      (if ((j / s * s : Nat) : Int) < (m : Int) - (s : Int) then
        npMax (sliceN (List.replicate m 0) (j / s * s) (j / s * s + s))
      else Except.ok 0) = Except.ok (0:ℚ) := by
    intro j _
    by_cases hcov : ((j / s * s : Nat) : Int) < (m : Int) - (s : Int)
    · rw [if_pos hcov]
      rw [sliceN_replicate_zero]
      apply npMax_replicate_zero
      omega
    · rw [if_neg hcov]
  have hm := mapME_const hall
  rw [binnedPeaksST]
  simp only [List.length_replicate]
  rw [hm]
  simp

theorem binnedPeaksLT_replicate_zero (m L : Nat) (hL : 1 ≤ L) :
    binnedPeaksLT (List.replicate m 0) L = Except.ok (List.replicate m 0) := by
  have hall : ∀ idx ∈ List.range m,
      (if L ≤ idx ∧ (idx : Int) < (m : Int) - (L : Int) then
        npMax (sliceN (List.replicate m 0) (idx - L) (idx + L))
      else Except.ok 0) = Except.ok (0:ℚ) := by
    intro idx _
    by_cases hcov : L ≤ idx ∧ (idx : Int) < (m : Int) - (L : Int)
    · rw [if_pos hcov]
      rw [sliceN_replicate_zero]
      apply npMax_replicate_zero
      obtain ⟨h1, h2⟩ := hcov
      omega
    · rw [if_neg hcov]
  have hm := mapME_const hall
  rw [binnedPeaksLT]
  simp only [List.length_replicate]
  rw [hm]
  simp

theorem binnedPeaksLT_all_uncovered {xs : List ℚ} {L : Nat}
    (h : (xs.length : Int) ≤ 2 * (L : Int)) :
    binnedPeaksLT xs L = Except.ok (List.replicate xs.length 0) := by
  have hall : ∀ idx ∈ List.range xs.length,
      (if L ≤ idx ∧ (idx : Int) < (xs.length : Int) - (L : Int) then
        npMax (sliceN xs (idx - L) (idx + L))
      else Except.ok 0) = Except.ok (0:ℚ) := by
    intro idx _
    rw [if_neg]
    intro hcov
    obtain ⟨h1, h2⟩ := hcov
    omega
  have := mapME_const hall
  rw [binnedPeaksLT, this]
  simp

theorem binnedPeaksLT_ok_getD {xs : List ℚ} {L : Nat} {lt : List ℚ}
    (h : binnedPeaksLT xs L = Except.ok lt) {idx : Nat} (h1 : L ≤ idx)
    (h2 : (idx : Int) < (xs.length : Int) - (L : Int)) :
    npMax (sliceN xs (idx - L) (idx + L)) = Except.ok (lt.getD idx 0) := by
  have hidx : idx < xs.length := by omega
  have happ := mapME_ok_apply h idx (by simpa using hidx)
  rw [range_getD hidx] at happ
  rw [if_pos ⟨h1, h2⟩] at happ
  exact happ

theorem binnedPeaksLT_ge {xs : List ℚ} {L : Nat} {lt : List ℚ}
    (h : binnedPeaksLT xs L = Except.ok lt) {idx : Nat} (h1 : L ≤ idx)
    (h2 : (idx : Int) < (xs.length : Int) - (L : Int)) :
    xs.getD idx 0 ≤ lt.getD idx 0 := by
  have hnm := binnedPeaksLT_ok_getD h h1 h2
  rcases Nat.eq_zero_or_pos L with hL0 | hLpos
  · subst hL0
    have hnil : sliceN xs (idx - 0) (idx + 0) = [] := by
      have : (sliceN xs (idx - 0) (idx + 0)).length = 0 := by
        rw [sliceN_length]; omega
      exact List.eq_nil_of_length_eq_zero this
    rw [hnil] at hnm
    cases hnm
  · apply npMax_ge hnm
    exact getD_mem_sliceN (by omega) (by omega) (by omega)

theorem medfilt15_length (xs : List ℚ) : (medfilt15 xs).length = xs.length := by
  simp [medfilt15]

theorem insertSorted_zero_replicate :
    ∀ k : Nat, insertSorted 0 (List.replicate k (0:ℚ)) = List.replicate (k + 1) 0 := by
  intro k
  cases k with
  | zero => rfl
  | succ k =>
    rw [List.replicate_succ, insertSorted, if_pos (le_refl (0:ℚ))]
    simp [List.replicate_succ]

theorem sortQ_replicate_zero :
    ∀ k : Nat, sortQ (List.replicate k (0:ℚ)) = List.replicate k 0 := by
  intro k
  induction k with
  | zero => rfl
  | succ k ih =>
    rw [List.replicate_succ, sortQ, List.foldr_cons]
    have hk : List.foldr insertSorted [] (List.replicate k (0:ℚ)) = List.replicate k 0 := ih
    rw [hk, insertSorted_zero_replicate]
    rfl

theorem median15_replicate_zero (m i : Nat) :
    median15 (List.replicate m (0:ℚ)) i = 0 := by
  unfold median15
  have hw : (List.range 15).map
      (fun k : Nat => getZero (List.replicate m 0) ((i : Int) + (k : Int) - 7))
        = List.replicate 15 0 := by
    have hmem : ∀ k ∈ List.range 15,
        getZero (List.replicate m (0:ℚ)) ((i : Int) + (k : Int) - 7) = 0 := by
      intro k _
      unfold getZero
      split
      · exact getD_replicate_zero m _
      · rfl
    rw [List.map_congr_left hmem]
    simp
  rw [hw, sortQ_replicate_zero]
  exact getD_replicate_zero 15 7

theorem medfilt15_replicate_zero (m : Nat) :
    medfilt15 (List.replicate m (0:ℚ)) = List.replicate m 0 := by
  unfold medfilt15
  rw [List.length_replicate]
  rw [List.map_congr_left (fun i _ => median15_replicate_zero m i)]
  simp

theorem psd_ok_parts {tput time : List ℚ} {bwS bwL : ℚ}
    {out : List Bool × List ℚ × List ℚ}
    (hok : peak_speed_detect tput time bwS bwL = Except.ok out) :
    ∃ st lt,
      binnedPeaksLT (medfilt15 (List.replicate (stepOf time bwL).toNat 0 ++ tput))
          (stepOf time bwL).toNat = Except.ok lt ∧
      out.1 = (List.zipWith (fun a b => decide (7/10 * b < a)) st lt).drop
          (stepOf time bwL).toNat ∧
      out.2.1 = lt.drop (stepOf time bwL).toNat ∧
      out.2.2 = (medfilt15 (List.replicate (stepOf time bwL).toNat 0 ++ tput)).drop
          (stepOf time bwL).toNat := by
  rw [peak_speed_detect] at hok
  split at hok
  · exact absurd hok (by simp)
  split at hok
  · exact absurd hok (by simp)
  split at hok
  · exact absurd hok (by simp)
  split at hok
  · exact absurd hok (by simp)
  split at hok
  all_goals
    dsimp only at hok
    split at hok
    · rename_i st lt hst hlt
      rw [Except.ok.injEq] at hok
      exact ⟨st, lt, hlt, by rw [← hok], by rw [← hok], by rw [← hok]⟩
    · exact absurd hok (by simp)
    · exact absurd hok (by simp)

theorem roles_forkTrack (st : SpawnState) (r : SpawnRole) :
    (forkTrack st r).pids.map Prod.snd = st.pids.map Prod.snd ++ [r] := by
  simp [forkTrack]

theorem roles_foldl_ifaces (hn : String) :
    ∀ (ifs : List String) (st : SpawnState),
      ((ifs.foldl (fun st i => forkTrack st (SpawnRole.collector hn i)) st).pids.map Prod.snd)
        = st.pids.map Prod.snd ++ ifs.map (SpawnRole.collector hn) := by
  intro ifs
  induction ifs with
  | nil => intro st; simp
  | cons i ifs ih =>
    intro st
    rw [List.foldl_cons, ih, roles_forkTrack]
    simp

theorem roles_spawnCollectorsHost (h : HostSpec) (st : SpawnState) :
    (spawnCollectorsHost h st).pids.map Prod.snd
      = st.pids.map Prod.snd ++ h.ifaces.map (SpawnRole.collector h.hostname) :=
  roles_foldl_ifaces h.hostname h.ifaces st

theorem roles_spawnCollectors :
    ∀ (hosts : List HostSpec) (st : SpawnState),
      (spawnCollectors hosts st).pids.map Prod.snd
        = st.pids.map Prod.snd ++ collectorRoles hosts := by
  intro hosts
  induction hosts with
  | nil => intro st; simp [spawnCollectors, collectorRoles]
  | cons h hosts ih =>
    intro st
    rw [spawnCollectors, List.foldl_cons]
    have hfold : hosts.foldl (fun st h => spawnCollectorsHost h st) (spawnCollectorsHost h st)
        = spawnCollectors hosts (spawnCollectorsHost h st) := rfl
    rw [hfold, ih, roles_spawnCollectorsHost]
    simp [collectorRoles]

theorem roles_spawnTest (t : TestDesc) (st : SpawnState) :
    (spawnTest t st).pids.map Prod.snd = st.pids.map Prod.snd ++ perTestRoles t := by
  rcases t with ⟨tn, h1, h2⟩
  cases h1 <;> cases h2 <;>
    simp [spawnTest, perTestRoles, forkTrack]

theorem roles_foldl_tests :
    ∀ (tests : List TestDesc) (st : SpawnState),
      ((tests.foldl (fun st t => spawnTest t st) st).pids.map Prod.snd)
        = st.pids.map Prod.snd ++ tests.flatMap perTestRoles := by
  intro tests
  induction tests with
  | nil => intro st; simp
  | cons t tests ih =>
    intro st
    rw [List.foldl_cons, ih, roles_spawnTest]
    simp

/-! ## Claims -/

/-- C1: in a run with 8 tracked children of which pids 1 and 2 have
already been reaped by the wait loop, the registry still lists all 8
pids (reaping never prunes it), and the interrupt handler therefore
attempts a kill on reaped pid 1 first, which raises ProcessLookupError
and aborts the sweep before any live handle is signalled; the claim
instead requires a kill for every live handle and zero attempts on the
reaped ones. -/
theorem C1_interrupt_kills_reaped :
    (reapOne (reapOne ⟨[1, 2, 3, 4, 5, 6, 7, 8], [1, 2, 3, 4, 5, 6, 7, 8]⟩ 1) 2).pids
        = [1, 2, 3, 4, 5, 6, 7, 8]
    ∧ signal_handler (reapOne (reapOne ⟨[1, 2, 3, 4, 5, 6, 7, 8], [1, 2, 3, 4, 5, 6, 7, 8]⟩ 1) 2)
        = Except.error 1 := by
  exact ⟨by decide, by decide⟩

/-- C2 (counterexample): with one collector and two tests that each have
both endpoints, the spawn order the orchestrator produces differs from
the spec order (all host1 endpoints before all host2 endpoints). -/
theorem C2_spawn_order_cex :
    (spawnAll hostsOne testsTwo).pids.map Prod.snd ≠ specSpawnOrder hostsOne testsTwo := by
  decide

/-- C2 (amended): the spawn order is all collectors (one per host and
interface, host-list order) followed, for each test in descriptor
order, by that test's host1 endpoint and then its host2 endpoint;
generators of different tests are interleaved per test, not segregated
into a host1 pass and a host2 pass. -/
theorem C2_spawn_order (hosts : List HostSpec) (tests : List TestDesc) :
    (spawnAll hosts tests).pids.map Prod.snd
      = collectorRoles hosts ++ tests.flatMap perTestRoles := by
  rw [spawnAll, roles_foldl_tests, roles_spawnCollectors]
  simp

/-- C3 (counterexample): a 3-sample log whose last sample lies beyond
the 100 s cutoff yields a RateSeries of length 1, not length 2 as the
claim requires for every log with at least 2 samples. -/
theorem C3_rate_series_length_cex :
    (process_log_to_df logLate 100).map (fun df => df.relative_time.length) = Except.ok 1
    ∧ logLate.length - 1 = 2 := by
  exact ⟨by with_unfolding_all decide, by decide⟩

/-- C3 (amended): for a raw log with at least 2 samples all of whose
rows from position 1 on fall within the time threshold, the RateSeries
length is exactly the number of samples minus 1; the time-threshold
filter can otherwise drop rows. -/
theorem C3_rate_series_length (s0 s1 : RawSample) (rest : List RawSample) (tth : ℚ)
    (h : ∀ s ∈ s1 :: rest, s.time - s1.time ≤ tth) :
    (process_log_to_df (s0 :: s1 :: rest) tth).map (fun df => df.relative_time.length)
      = Except.ok (rest.length + 1) := by
  have hf : (s1 :: rest).filter (fun s => decide (s.time - s1.time ≤ tth)) = s1 :: rest :=
    List.filter_eq_self.mpr (fun a ha => decide_eq_true (h a ha))
  simp only [process_log_to_df]
  rw [hf]
  simp [Except.map]

/-- C3 (witness): a 2-sample log inside the cutoff has a RateSeries of
length 1. -/
theorem C3_rate_series_length_witness :
    (process_log_to_df [mkSample 0 0, mkSample 1 10, mkSample 2 17] 100).map
        (fun df => df.relative_time.length) = Except.ok 2 :=
  C3_rate_series_length (mkSample 0 0) (mkSample 1 10) [mkSample 2 17] 100
    (by with_unfolding_all decide)

/-- C4: process_all_logs accepts queue_threshold 5 but never forwards
it; on a log with a backlog delta of 7 the produced queue_exists is 0
(the hard-coded comparison against 10), although 7 exceeds the
requested threshold 5. -/
theorem C4_queue_threshold_ignored :
    (process_all_logs_entry 5 100 logDeltas).map (fun df => (df.queue_size, df.queue_exists))
        = Except.ok ([none, some 7], [0, 0])
    ∧ (5 : ℚ) < 7 := by
  exact ⟨by with_unfolding_all decide, by with_unfolding_all decide⟩

/-- C5 (counterexample): a raw log with a single sample makes the
series builder raise IndexError instead of returning an empty
RateSeries. -/
theorem C5_short_raw_log_cex :
    process_log_to_df [mkSample 0 5] 100
      = Except.error "IndexError: single positional indexer is out-of-bounds" := by
  with_unfolding_all rfl

/-- C5 (amended): a raw log with fewer than 2 samples makes the series
builder raise an error (EmptyDataError for no samples, IndexError for
one sample), which the batch driver catches and reports per file; it
does not return an empty RateSeries. -/
theorem C5_short_raw_log (samples : List RawSample) (tth : ℚ)
    (h : samples.length < 2) :
    isOkE (process_log_to_df samples tth) = false := by
  rcases samples with _ | ⟨a, rest⟩
  · rfl
  rcases rest with _ | ⟨b, r⟩
  · rfl
  · simp only [List.length_cons] at h
    omega

/-- C5 (witness): the one-sample log is rejected. -/
theorem C5_short_raw_log_witness :
    ([mkSample 0 5] : List RawSample).length < 2
    ∧ isOkE (process_log_to_df [mkSample 0 5] 100) = false :=
  ⟨by decide, C5_short_raw_log [mkSample 0 5] 100 (by decide)⟩

/-- C10: for every raw log with at least 2 samples and a nonnegative
time threshold, queue_exists at the first retained row is 0, because
queue_size there is the NaN sentinel of the pandas diff and the
threshold comparison on it is false. -/
theorem C10_first_retained_queue_exists (s0 s1 : RawSample) (rest : List RawSample)
    (tth : ℚ) (h : 0 ≤ tth) :
    (process_log_to_df (s0 :: s1 :: rest) tth).map (fun df => df.queue_exists.getD 0 1)
      = Except.ok 0 := by
  simp only [process_log_to_df]
  have hp : decide (s1.time - s1.time ≤ tth) = true := decide_eq_true (by simpa using h)
  rw [List.filter_cons, hp]
  simp [pandasDiff, optGtQ, Except.map]

/-- C10 (witness): the worked example of the spec, whose first retained
row gets queue_exists 0. -/
theorem C10_first_retained_queue_exists_witness :
    (0 : ℚ) ≤ 100
    ∧ (process_log_to_df [sampleEx0, sampleEx1] 100).map
        (fun df => df.queue_exists.getD 0 1) = Except.ok 0 :=
  ⟨by norm_num, C10_first_retained_queue_exists sampleEx0 sampleEx1 [] 100 (by norm_num)⟩

/-- C6 (counterexample): a 2-sample throughput series paired with a
3-sample time axis is accepted by the peak detector, which silently
returns a result instead of failing with a validation error. -/
theorem C6_no_length_validation_cex :
    isOkE (peak_speed_detect [1, 2] time3 100 1000) = true
    ∧ ([1, 2] : List ℚ).length ≠ time3.length := by
  exact ⟨by with_unfolding_all decide, by decide⟩

/-- C6 (amended): the peak detector performs no length validation at
all: whenever the time axis has at least 2 points, a nonzero mean
interval and both derived steps at least 1, it returns successfully for
every throughput series, whatever its length. -/
theorem C6_no_length_validation (tput time : List ℚ) (bwS bwL : ℚ)
    (h2 : 2 ≤ time.length) (h0 : meanDtMs time ≠ 0)
    (hs : 1 ≤ stepOf time bwS) (hL : 1 ≤ stepOf time bwL) :
    isOkE (peak_speed_detect tput time bwS bwL) = true := by
  rw [peak_speed_detect]
  rw [if_neg (by omega), if_neg h0, if_neg (by omega), if_neg (by omega)]
  dsimp only
  rw [if_pos (by omega : (0:Int) < stepOf time bwS)]
  obtain ⟨st, hst⟩ := isOkE_eq_true.mp
    (binnedPeaksST_isOk (List.replicate (stepOf time bwL).toNat 0 ++ tput)
      (stepOf time bwS).toNat (by omega))
  obtain ⟨lt, hlt⟩ := isOkE_eq_true.mp
    (binnedPeaksLT_isOk (medfilt15 (List.replicate (stepOf time bwL).toNat 0 ++ tput))
      (stepOf time bwL).toNat (by omega))
  rw [hst, hlt]
  rfl

/-- C6 (witness): the amended statement applied at the mismatched
concrete input. -/
theorem C6_no_length_validation_witness :
    2 ≤ time3.length ∧ meanDtMs time3 ≠ 0
    ∧ 1 ≤ stepOf time3 100 ∧ 1 ≤ stepOf time3 1000
    ∧ isOkE (peak_speed_detect [1, 2] time3 100 1000) = true := by
  refine ⟨by decide, by with_unfolding_all decide, by with_unfolding_all decide,
    by with_unfolding_all decide, ?_⟩
  exact C6_no_length_validation [1, 2] time3 100 1000 (by decide)
    (by with_unfolding_all decide) (by with_unfolding_all decide)
    (by with_unfolding_all decide)

/-- C7 (counterexample): an isolated spike of 100 at covered index 12
is removed by the median filter, so the long-term envelope there is 0,
strictly below the raw throughput. -/
theorem C7_envelope_vs_raw_cex :
    (peak_speed_detect spike25 time25 100 1000).map
        (fun r => decide (spike25.getD 12 0 ≤ r.2.1.getD 12 0)) = Except.ok false
    ∧ 12 + (stepOf time25 1000).toNat < spike25.length := by
  exact ⟨by with_unfolding_all decide, by with_unfolding_all decide⟩

/-- C7 (amended): at every fully covered index, the long-term envelope
dominates the median-filtered throughput (the series it is computed
from), not necessarily the raw throughput. -/
theorem C7_envelope_vs_raw (tput time : List ℚ) (bwS bwL : ℚ)
    (out : List Bool × List ℚ × List ℚ) (i : Nat)
    (hok : peak_speed_detect tput time bwS bwL = Except.ok out)
    (hi : i + (stepOf time bwL).toNat < tput.length) :
    out.2.2.getD i 0 ≤ out.2.1.getD i 0 := by
  obtain ⟨st, lt, hlt, hsc, henv, htpf⟩ := psd_ok_parts hok
  rw [htpf, henv]
  rw [getD_drop, getD_drop]
  apply binnedPeaksLT_ge hlt
  · omega
  · rw [medfilt15_length]
    simp only [List.length_append, List.length_replicate]
    push_cast
    omega

/-- C7 (witness): the amended statement applied at an all-zero input of
length 12, index 1. -/
theorem C7_envelope_vs_raw_witness :
    peak_speed_detect (List.replicate 12 0) time12 100 1000
        = Except.ok (List.replicate 12 false, List.replicate 12 0, List.replicate 12 0)
    ∧ 1 + (stepOf time12 1000).toNat < (List.replicate 12 (0:ℚ)).length
    ∧ ((List.replicate 12 false, List.replicate 12 0, List.replicate 12 0) :
          List Bool × List ℚ × List ℚ).2.2.getD 1 0
        ≤ ((List.replicate 12 false, List.replicate 12 0, List.replicate 12 0) :
          List Bool × List ℚ × List ℚ).2.1.getD 1 0 := by
  have h1 : peak_speed_detect (List.replicate 12 0) time12 100 1000
      = Except.ok (List.replicate 12 false, List.replicate 12 0, List.replicate 12 0) := by
    with_unfolding_all decide
  have h2 : 1 + (stepOf time12 1000).toNat < (List.replicate 12 (0:ℚ)).length := by
    with_unfolding_all decide
  exact ⟨h1, h2, C7_envelope_vs_raw (List.replicate 12 0) time12 100 1000 _ 1 h1 h2⟩

/-- C8 (counterexample): a constant-1 series of 5 samples (shorter than
the long-term step 10) yields an all-zero envelope but a score that is
1 on the first four samples, so the score is not all-zero. -/
theorem C8_short_series_envelope_cex :
    peak_speed_detect [1, 1, 1, 1, 1] time5 100 1000
        = Except.ok ([true, true, true, true, false], List.replicate 5 0, List.replicate 5 0)
    ∧ ([1, 1, 1, 1, 1] : List ℚ).length < (stepOf time5 1000).toNat := by
  exact ⟨by with_unfolding_all decide, by with_unfolding_all decide⟩

/-- C8 (amended): for a throughput series strictly shorter than the
long-term step, every returned envelope is all-zero (the long-term loop
covers no index); the score, however, need not be all-zero. -/
theorem C8_short_series_envelope (tput time : List ℚ) (bwS bwL : ℚ)
    (out : List Bool × List ℚ × List ℚ)
    (hok : peak_speed_detect tput time bwS bwL = Except.ok out)
    (hshort : tput.length < (stepOf time bwL).toNat) :
    out.2.1 = List.replicate tput.length 0 := by
  obtain ⟨st, lt, hlt, hsc, henv, htpf⟩ := psd_ok_parts hok
  have hlen : (medfilt15 (List.replicate (stepOf time bwL).toNat 0 ++ tput)).length
      = (stepOf time bwL).toNat + tput.length := by
    rw [medfilt15_length]; simp
  have hle : ((medfilt15 (List.replicate (stepOf time bwL).toNat 0 ++ tput)).length : Int)
      ≤ 2 * ((stepOf time bwL).toNat : Int) := by
    rw [hlen]; push_cast; omega
  have hzero := binnedPeaksLT_all_uncovered hle
  rw [hlt, Except.ok.injEq] at hzero
  rw [henv, hzero, hlen, List.drop_replicate]
  congr 1
  omega

/-- C8 (witness): the amended statement applied at an all-zero series
of 5 samples. -/
theorem C8_short_series_envelope_witness :
    peak_speed_detect (List.replicate 5 0) time5 100 1000
        = Except.ok (List.replicate 5 false, List.replicate 5 0, List.replicate 5 0)
    ∧ (List.replicate 5 (0:ℚ)).length < (stepOf time5 1000).toNat
    ∧ ((List.replicate 5 false, List.replicate 5 0, List.replicate 5 0) :
          List Bool × List ℚ × List ℚ).2.1 = List.replicate (List.replicate 5 (0:ℚ)).length 0 := by
  have h1 : peak_speed_detect (List.replicate 5 0) time5 100 1000
      = Except.ok (List.replicate 5 false, List.replicate 5 0, List.replicate 5 0) := by
    with_unfolding_all decide
  have h2 : (List.replicate 5 (0:ℚ)).length < (stepOf time5 1000).toNat := by
    with_unfolding_all decide
  exact ⟨h1, h2, C8_short_series_envelope (List.replicate 5 0) time5 100 1000 _ h1 h2⟩

/-- C9 (counterexample): an all-zero throughput with the time axis
0 s, 1 s makes the short-term step round to 0, and the detector raises
the range step error instead of returning all-zero outputs. -/
theorem C9_all_zero_throughput_cex :
    peak_speed_detect [0, 0] [0, 1] 100 1000
      = Except.error "ValueError: range arg 3 must not be zero" := by
  with_unfolding_all decide

/-- C9 (amended): for every time axis with at least 2 points, a nonzero
mean interval and both derived steps at least 1, an all-zero throughput
series of any length yields an all-zero score, an all-zero envelope and
an all-zero filtered series, with no error. -/
theorem C9_all_zero_throughput (time : List ℚ) (bwS bwL : ℚ) (n : Nat)
    (h2 : 2 ≤ time.length) (h0 : meanDtMs time ≠ 0)
    (hs : 1 ≤ stepOf time bwS) (hL : 1 ≤ stepOf time bwL) :
    peak_speed_detect (List.replicate n 0) time bwS bwL
      = Except.ok (List.replicate n false, List.replicate n 0, List.replicate n 0) := by
  rw [peak_speed_detect]
  rw [if_neg (by omega), if_neg h0, if_neg (by omega), if_neg (by omega)]
  dsimp only
  rw [if_pos (by omega : (0:Int) < stepOf time bwS)]
  rw [← List.replicate_add]
  rw [binnedPeaksST_replicate_zero _ _ (by omega), medfilt15_replicate_zero,
    binnedPeaksLT_replicate_zero _ _ (by omega)]
  dsimp only
  rw [List.zipWith_replicate']
  have hd : decide ((7:ℚ)/10 * 0 < 0) = false := by with_unfolding_all decide
  rw [hd]
  simp [List.drop_replicate]

/-- C9 (witness): the amended statement applied at a 2-sample all-zero
series over a well-formed time axis. -/
theorem C9_all_zero_throughput_witness :
    2 ≤ time3.length ∧ meanDtMs time3 ≠ 0
    ∧ 1 ≤ stepOf time3 100 ∧ 1 ≤ stepOf time3 1000
    ∧ peak_speed_detect (List.replicate 2 0) time3 100 1000
        = Except.ok (List.replicate 2 false, List.replicate 2 0, List.replicate 2 0) := by
  refine ⟨by decide, by with_unfolding_all decide, by with_unfolding_all decide,
    by with_unfolding_all decide, ?_⟩
  exact C9_all_zero_throughput time3 100 1000 2 (by decide)
    (by with_unfolding_all decide) (by with_unfolding_all decide)
    (by with_unfolding_all decide)

end NBN
